import Mathlib

/-!
Shallow embedding of the embedding & semantic-ranking pipeline of the
Norate-AI note application (`src/lib/ai-service.ts` together with the API
route handlers under `src/app/api/ai/`), with theorems settling the frozen
claims about its natural-language specification.

Numeric values carried by embedding vectors are modelled as rationals;
`Math.sqrt` is modelled by `Rat.sqrt`, which is exact on every input used
by a concrete evaluation below.
-/

namespace NorateAI

/-- A document value as consumed by `extractTextFromTipTapContent`: a JSON
string, a JSON object with optional `type`, optional `text` and an optional
`content` array of children (an absent or non-array `content` is modelled
as `[]`), or any other primitive value (number, boolean, null). -/
inductive TipTapNode where
  | str (s : String)
  | obj (type : Option String) (text : Option String) (content : List TipTapNode)
  | prim

/-- Model of JavaScript `String.prototype.trim`: drop whitespace characters
from both ends of the string. -/
def jsTrim (s : String) : String :=
  ⟨((s.data.dropWhile Char.isWhitespace).reverse.dropWhile Char.isWhitespace).reverse⟩

/-- Model of JavaScript `s.substring(0, n)`: the first `n` characters. -/
def jsSubstring (s : String) (n : ℕ) : String :=
  ⟨s.data.take n⟩

/-- The block-level check `["paragraph", "heading", "blockquote"].includes(node.type)`
guarded by the truthiness of `node.type`. -/
def isBlockType (type : Option String) : Bool :=
  match type with
  | none => false
  | some t => t == "paragraph" || t == "heading" || t == "blockquote"

mutual

/-- The inner `extractText` recursion of `extractTextFromTipTapContent`:
a string is returned as-is, a non-object contributes nothing, an object
contributes its `text`, then its children in order, then a single trailing
space exactly when its `type` is block-level. -/
def extractText : TipTapNode → String
  | .str s => s
  | .prim => ""
  | .obj ty tx content =>
      tx.getD "" ++ extractTextList content ++ (if isBlockType ty then " " else "")

/-- Concatenation of `extractText` over a `content` array, in order. -/
def extractTextList : List TipTapNode → String
  | [] => ""
  | c :: cs => extractText c ++ extractTextList cs

end

/-- `extractTextFromTipTapContent`: `""` for an absent document, otherwise
the recursive extraction trimmed at both ends (a falsy document such as the
empty string also yields `""` in the source, which coincides with trimming
the extraction of the empty string). -/
def extractTextFromTipTapContent (content : Option TipTapNode) : String :=
  match content with
  | none => ""
  | some node => jsTrim (extractText node)

/-- The two-paragraph scenario tree
`{type:"doc", content:[paragraph("Hello"), paragraph("World")]}`. -/
def helloWorldDoc : TipTapNode :=
  .obj (some "doc") none
    [ .obj (some "paragraph") none [.obj (some "text") (some "Hello") []]
    , .obj (some "paragraph") none [.obj (some "text") (some "World") []] ]

/-- C3 counterexample: on the two-paragraph scenario tree the extractor
returns `"Hello World"` with exactly one space between the words, not
`"Hello  World"` with two. -/
theorem C3_extract_two_paragraphs_counterexample :
    extractTextFromTipTapContent (some helloWorldDoc) = "Hello World" ∧
      extractTextFromTipTapContent (some helloWorldDoc) ≠ "Hello  World" := by
  constructor <;> decide

/-- C3 amended: text extraction appends exactly one trailing space after
each block-level node and none after a non-block node, and on the
two-paragraph scenario tree it returns `"Hello World"`: a single space
between the words and no leading or trailing whitespace. -/
theorem C3_extract_single_block_space (ty tx : Option String)
    (content : List TipTapNode) :
    (isBlockType ty = true →
      extractText (.obj ty tx content) = tx.getD "" ++ extractTextList content ++ " ") ∧
    (isBlockType ty = false →
      extractText (.obj ty tx content) = tx.getD "" ++ extractTextList content) ∧
    extractTextFromTipTapContent (some helloWorldDoc) = "Hello World" := by
  refine ⟨fun hb => ?_, fun hb => ?_, by decide⟩
  · simp [extractText, hb]
  · simp [extractText, hb]

/-- C3 amended witness at the `paragraph` node type. -/
theorem C3_extract_single_block_space_witness :
    extractText (.obj (some "paragraph") (some "Hi") []) = "Hi" ++ "" ++ " " :=
  (C3_extract_single_block_space (some "paragraph") (some "Hi") []).1 (by decide)

/-- C4 counterexample: a string input is trimmed, not returned verbatim:
the input `" a "` comes back as `"a"`. -/
theorem C4_extract_string_counterexample :
    extractTextFromTipTapContent (some (.str " a ")) ≠ " a " ∧
      extractTextFromTipTapContent (some (.str " a ")) = "a" := by
  constructor <;> decide

/-- C4 amended: an absent input yields the empty string, and a string
input is returned trimmed of leading and trailing whitespace (hence
verbatim exactly when it carries no outer whitespace). -/
theorem C4_extract_null_and_string :
    extractTextFromTipTapContent none = "" ∧
      ∀ s : String, extractTextFromTipTapContent (some (.str s)) = jsTrim s := by
  exact ⟨rfl, fun s => rfl⟩

/-! ### Embedding client (`generateEmbedding`) -/

/-- The fields of a provider embeddings response that the client reads:
`response.data[0]?.embedding` (absent when the response carries no first
datum or no embedding) and `response.usage?.total_tokens`. -/
structure ProviderResponse where
  embedding : Option (List ℚ)
  totalTokens : Option ℕ

/-- A successful result of `generateEmbedding`: the vector and the
provider-reported token count. -/
structure EmbeddingResult where
  embedding : List ℚ
  tokens : ℕ
deriving DecidableEq

/-- The three distinct throws inside the `try` block of `generateEmbedding`,
before its catch-all rewraps them: the empty-input validation throw, a throw
out of the provider call, and the missing-embedding throw. -/
inductive EmbedError where
  | emptyInput
  | providerFailure (detail : String)
  | noEmbedding
deriving DecidableEq

/-- The message carried by each internal throw of `generateEmbedding`. -/
def EmbedError.message : EmbedError → String
  | .emptyInput => "No text provided for embedding generation"
  | .providerFailure detail => detail
  | .noEmbedding => "No embedding returned from AI service"

/-- The body of the `try` block of `generateEmbedding`: validate the input
(`!text || text.trim().length === 0`), truncate to 8000 characters, issue
the provider call, and fail when the response carries no embedding field.
`provider` gives the outcome of `openai.embeddings.create` as a function of
the input text sent to it. -/
def generateEmbeddingInner (text : String)
    (provider : String → Except String ProviderResponse) :
    Except EmbedError EmbeddingResult :=
  if text = "" ∨ (jsTrim text).length = 0 then
    .error .emptyInput
  else
    match provider (jsSubstring text 8000) with
    | .error e => .error (.providerFailure e)
    | .ok response =>
        match response.embedding with
        | none => .error .noEmbedding
        | some emb => .ok ⟨emb, response.totalTokens.getD 0⟩

/-- `generateEmbedding`: its `catch` block rethrows every internal failure
as the single generic error `"Failed to generate embedding"`. -/
def generateEmbedding (text : String)
    (provider : String → Except String ProviderResponse) :
    Except String EmbeddingResult :=
  match generateEmbeddingInner text provider with
  | .ok r => .ok r
  | .error _ => .error "Failed to generate embedding"

/-- A provider call that answers every input with the empty vector. -/
def emptyVectorProvider : String → Except String ProviderResponse :=
  fun _ => .ok ⟨some [], some 5⟩

/-- C5 counterexample: a provider response whose embedding is the empty
vector is returned as a success carrying the empty vector — the truthiness
check `if (!embedding)` does not fire on an empty array — rather than
failing. -/
theorem C5_empty_vector_counterexample :
    generateEmbedding "hello world" emptyVectorProvider =
      .ok ⟨[], 5⟩ := rfl

/-- C5 amended: `generateEmbedding` fails when the provider response carries
no embedding field at all; an empty embedding vector is not detected and is
passed through as a successful result. -/
theorem C5_missing_vs_empty_embedding (text : String)
    (provider : String → Except String ProviderResponse)
    (resp : ProviderResponse)
    (hok : provider (jsSubstring text 8000) = .ok resp)
    (hne : ¬ (text = "" ∨ (jsTrim text).length = 0)) :
    (resp.embedding = none →
      generateEmbedding text provider = .error "Failed to generate embedding") ∧
    (resp.embedding = some [] →
      generateEmbedding text provider = .ok ⟨[], resp.totalTokens.getD 0⟩) := by
  constructor <;> intro hemb <;>
    simp [generateEmbedding, generateEmbeddingInner, hne, hok, hemb]

/-- C5 amended witness: with text `"hello"`, a provider answering without an
embedding field yields the generic failure, and one answering the empty
vector yields a success carrying the empty vector. -/
theorem C5_missing_vs_empty_embedding_witness :
    generateEmbedding "hello" (fun _ => .ok ⟨none, some 5⟩) =
        .error "Failed to generate embedding" ∧
      generateEmbedding "hello" (fun _ => .ok ⟨some [], some 5⟩) = .ok ⟨[], 5⟩ :=
  ⟨(C5_missing_vs_empty_embedding "hello" (fun _ => .ok ⟨none, some 5⟩)
      ⟨none, some 5⟩ rfl (by decide)).1 rfl,
   (C5_missing_vs_empty_embedding "hello" (fun _ => .ok ⟨some [], some 5⟩)
      ⟨some [], some 5⟩ rfl (by decide)).2 rfl⟩

/-- C6 counterexample: the failure surfaced for an empty or whitespace-only
input is the same error value `"Failed to generate embedding"` as the one
surfaced for a provider failure, so the caller sees no distinct
empty-input error kind. -/
theorem C6_uniform_error_counterexample :
    generateEmbedding "" emptyVectorProvider =
        .error "Failed to generate embedding" ∧
      generateEmbedding "   " emptyVectorProvider =
        .error "Failed to generate embedding" ∧
      generateEmbedding "hello world" (fun _ => .error "network failure") =
        .error "Failed to generate embedding" :=
  ⟨rfl, rfl, rfl⟩

/-- `jsTrim` of the empty string is empty. -/
theorem jsTrim_empty : jsTrim "" = "" := rfl

/-- C6 amended: the internal validation of `generateEmbedding` raises its
empty-input throw exactly when the input is empty or whitespace-only after
trimming, before any provider call; but the surfaced error is the generic
`"Failed to generate embedding"`, the same value as for provider failures,
not a distinct error kind. -/
theorem C6_empty_input_validation (text : String)
    (provider : String → Except String ProviderResponse) :
    (generateEmbeddingInner text provider = .error .emptyInput ↔
      (jsTrim text).length = 0) ∧
    ((jsTrim text).length = 0 →
      generateEmbedding text provider = .error "Failed to generate embedding") := by
  have hguard : (text = "" ∨ (jsTrim text).length = 0) ↔ (jsTrim text).length = 0 := by
    constructor
    · rintro (h | h)
      · subst h; rfl
      · exact h
    · exact fun h => Or.inr h
  constructor
  · constructor
    · intro h
      by_cases hg : text = "" ∨ (jsTrim text).length = 0
      · exact hguard.mp hg
      · exfalso
        simp only [generateEmbeddingInner, if_neg hg] at h
        cases hp : provider (jsSubstring text 8000) with
        | error e => simp [hp] at h
        | ok response =>
          cases hemb : response.embedding with
          | none => simp [hp, hemb] at h
          | some emb => simp [hp, hemb] at h
    · intro h
      simp [generateEmbeddingInner, hguard.mpr h]
  · intro h
    simp [generateEmbedding, generateEmbeddingInner, hguard.mpr h]

/-- C6 amended witness at the whitespace-only input `"   "`. -/
theorem C6_empty_input_validation_witness :
    generateEmbeddingInner "   " emptyVectorProvider = .error .emptyInput ∧
      generateEmbedding "   " emptyVectorProvider =
        .error "Failed to generate embedding" :=
  ⟨(C6_empty_input_validation "   " emptyVectorProvider).1.mpr (by decide),
   (C6_empty_input_validation "   " emptyVectorProvider).2 (by decide)⟩

/-! ### Similarity ranker (`cosineSimilarity`) and search (`semanticSearch`) -/

/-- The `dotProduct` accumulator of `cosineSimilarity`: Σ a[i]·b[i] over the
common indices (the source loop runs after its equal-length guard). -/
def dotProduct (a b : List ℚ) : ℚ := (List.zipWith (· * ·) a b).sum

/-- The `normA`/`normB` accumulators before the square root: Σ a[i]². -/
def sumSquares (a : List ℚ) : ℚ := (a.map fun x => x * x).sum

/-- `cosineSimilarity`: throws `"Embedding dimensions must match"` on a
length mismatch, returns `0` when either norm is zero, and otherwise
`dot(a,b)/(‖a‖·‖b‖)`. `Math.sqrt` is modelled by `Rat.sqrt`, exact on
every perfect square. -/
def cosineSimilarity (a b : List ℚ) : Except String ℚ :=
  if a.length ≠ b.length then .error "Embedding dimensions must match"
  else if Rat.sqrt (sumSquares a) = 0 ∨ Rat.sqrt (sumSquares b) = 0 then .ok 0
  else .ok (dotProduct a b / (Rat.sqrt (sumSquares a) * Rat.sqrt (sumSquares b)))

/-- A candidate passed to `semanticSearch`: note id, stored embedding and
optional title (the extra fields the route passes along are not read). -/
structure NoteEmbedding where
  id : String
  embedding : List ℚ
  title : Option String
deriving DecidableEq

/-- One ranked entry produced by `semanticSearch`. -/
structure SearchResult where
  id : String
  title : Option String
  similarity : ℚ
deriving DecidableEq

/-- Ordered insertion used to model the stable JavaScript
`sort((a, b) => b.similarity - a.similarity)`: skip past entries with
strictly larger similarity, land before the first entry whose similarity is
not larger (so an earlier equal entry stays first). -/
def insertDesc (x : SearchResult) : List SearchResult → List SearchResult
  | [] => [x]
  | y :: ys =>
      if x.similarity < y.similarity then y :: insertDesc x ys else x :: y :: ys

/-- Stable descending sort by similarity. -/
def sortBySimilarityDesc : List SearchResult → List SearchResult
  | [] => []
  | x :: xs => insertDesc x (sortBySimilarityDesc xs)

/-- The `.map` step of `semanticSearch`: one `SearchResult` per candidate,
aborting with the first `cosineSimilarity` throw. -/
def computeSimilarities (queryEmbedding : List ℚ) :
    List NoteEmbedding → Except String (List SearchResult)
  | [] => .ok []
  | note :: rest =>
    match cosineSimilarity queryEmbedding note.embedding with
    | .error e => .error e
    | .ok sim =>
      match computeSimilarities queryEmbedding rest with
      | .error e => .error e
      | .ok tail => .ok ({ id := note.id, title := note.title, similarity := sim } :: tail)

/-- The `try` body of `semanticSearch`: embed the query, compute every
candidate's similarity, filter to `similarity >= threshold`, sort
descending. -/
def semanticSearchInner (query : String) (noteEmbeddings : List NoteEmbedding)
    (threshold : ℚ) (provider : String → Except String ProviderResponse) :
    Except String (List SearchResult) :=
  match generateEmbedding query provider with
  | .error e => .error e
  | .ok queryEmbeddingResult =>
    match computeSimilarities queryEmbeddingResult.embedding noteEmbeddings with
    | .error e => .error e
    | .ok mapped =>
        .ok (sortBySimilarityDesc (mapped.filter fun r => decide (threshold ≤ r.similarity)))

/-- `semanticSearch`: its `catch` block rethrows any internal failure as
`"Failed to perform semantic search"`. -/
def semanticSearch (query : String) (noteEmbeddings : List NoteEmbedding)
    (threshold : ℚ) (provider : String → Except String ProviderResponse) :
    Except String (List SearchResult) :=
  match semanticSearchInner query noteEmbeddings threshold provider with
  | .ok r => .ok r
  | .error _ => .error "Failed to perform semantic search"

/-- The fields of the search route's response body the claims are about. -/
structure SearchResponse where
  results : List SearchResult
  totalFound : ℕ
deriving DecidableEq

/-- The search-handler core of the route exposing `semanticSearch`
(`summarize/route.ts`): run the search, truncate the ranked list with
`slice(0, limit)` and report the pre-truncation length as `totalFound`
(authentication, note loading and result enrichment are glue around this
core). -/
def searchEndpoint (query : String) (noteEmbeddings : List NoteEmbedding)
    (threshold : ℚ) (limit : ℕ)
    (provider : String → Except String ProviderResponse) :
    Except String SearchResponse :=
  match semanticSearch query noteEmbeddings threshold provider with
  | .error e => .error e
  | .ok searchResults => .ok ⟨searchResults.take limit, searchResults.length⟩

/-! ### Ordering lemmas for the ranked list -/

/-- Membership in an ordered insertion. -/
theorem mem_insertDesc {a x : SearchResult} {l : List SearchResult} :
    a ∈ insertDesc x l ↔ a = x ∨ a ∈ l := by
  induction l with
  | nil => simp [insertDesc]
  | cons y ys ih =>
    by_cases h : x.similarity < y.similarity
    · simp only [insertDesc, if_pos h, List.mem_cons, ih]
      tauto
    · simp only [insertDesc, if_neg h, List.mem_cons]

/-- Ordered insertion adds exactly one entry. -/
theorem length_insertDesc (x : SearchResult) (l : List SearchResult) :
    (insertDesc x l).length = l.length + 1 := by
  induction l with
  | nil => rfl
  | cons y ys ih =>
    by_cases h : x.similarity < y.similarity <;> simp [insertDesc, h, ih]

/-- The sort does not change the number of entries. -/
theorem length_sortBySimilarityDesc (l : List SearchResult) :
    (sortBySimilarityDesc l).length = l.length := by
  induction l with
  | nil => rfl
  | cons x xs ih => simp [sortBySimilarityDesc, length_insertDesc, ih]

/-- The sort does not change the set of entries. -/
theorem mem_sortBySimilarityDesc {a : SearchResult} {l : List SearchResult} :
    a ∈ sortBySimilarityDesc l ↔ a ∈ l := by
  induction l with
  | nil => exact Iff.rfl
  | cons x xs ih => simp [sortBySimilarityDesc, mem_insertDesc, ih]

/-- Non-increasing similarity along a list. -/
def SortedDescBySim (l : List SearchResult) : Prop :=
  l.Pairwise fun a b => b.similarity ≤ a.similarity

/-- Ordered insertion preserves descending sortedness. -/
theorem sortedDescBySim_insertDesc {x : SearchResult} {l : List SearchResult}
    (h : SortedDescBySim l) : SortedDescBySim (insertDesc x l) := by
  induction l with
  | nil => simp [insertDesc, SortedDescBySim]
  | cons y ys ih =>
    rw [SortedDescBySim, List.pairwise_cons] at h
    obtain ⟨hy, hys⟩ := h
    by_cases hx : x.similarity < y.similarity
    · rw [SortedDescBySim, insertDesc, if_pos hx, List.pairwise_cons]
      refine ⟨fun z hz => ?_, ih hys⟩
      rcases mem_insertDesc.mp hz with rfl | hz
      · exact le_of_lt hx
      · exact hy z hz
    · rw [SortedDescBySim, insertDesc, if_neg hx, List.pairwise_cons]
      refine ⟨fun z hz => ?_, List.pairwise_cons.mpr ⟨hy, hys⟩⟩
      rcases List.mem_cons.mp hz with rfl | hz
      · exact le_of_not_lt hx
      · exact le_trans (hy z hz) (le_of_not_lt hx)

/-- The output of the sort is sorted non-increasing by similarity. -/
theorem sortedDescBySim_sort (l : List SearchResult) :
    SortedDescBySim (sortBySimilarityDesc l) := by
  induction l with
  | nil => exact List.Pairwise.nil
  | cons x xs ih => exact sortedDescBySim_insertDesc ih

/-- Stability of ordered insertion, expressed per similarity score: the
entries of any fixed score are preserved in order, with the inserted entry
(the earliest in input order) first when it carries that score. -/
theorem filter_insertDesc (x : SearchResult) (l : List SearchResult) (c : ℚ) :
    (insertDesc x l).filter (fun r => decide (r.similarity = c)) =
      if x.similarity = c then
        x :: l.filter (fun r => decide (r.similarity = c))
      else l.filter (fun r => decide (r.similarity = c)) := by
  induction l with
  | nil => by_cases h : x.similarity = c <;> simp [insertDesc, h]
  | cons y ys ih =>
    rw [insertDesc]
    by_cases hlt : x.similarity < y.similarity
    · rw [if_pos hlt]
      by_cases hyc : y.similarity = c
      · have hxc : ¬ x.similarity = c := fun hxc => by
          rw [hxc, hyc] at hlt
          exact lt_irrefl c hlt
        rw [List.filter_cons_of_pos (by simpa using hyc), ih, if_neg hxc, if_neg hxc,
          List.filter_cons_of_pos (by simpa using hyc)]
      · rw [List.filter_cons_of_neg (by simpa using hyc), ih,
          List.filter_cons_of_neg (by simpa using hyc)]
    · rw [if_neg hlt]
      by_cases hxc : x.similarity = c
      · rw [List.filter_cons_of_pos (by simpa using hxc), if_pos hxc]
      · rw [List.filter_cons_of_neg (by simpa using hxc), if_neg hxc]

/-- Stability of the sort, expressed per similarity score: for every score,
the output entries with that score are exactly the input entries with that
score, in input order. -/
theorem filter_sortBySimilarityDesc (l : List SearchResult) (c : ℚ) :
    (sortBySimilarityDesc l).filter (fun r => decide (r.similarity = c)) =
      l.filter (fun r => decide (r.similarity = c)) := by
  induction l with
  | nil => rfl
  | cons x xs ih =>
    rw [sortBySimilarityDesc, filter_insertDesc]
    by_cases h : x.similarity = c <;> simp [h, ih]

/-- A provider call that answers every input with the one-dimensional
vector `[1]`. -/
def unitVectorProvider : String → Except String ProviderResponse :=
  fun _ => .ok ⟨some [1], some 1⟩

/-- Vectors of equal length never make `cosineSimilarity` throw. -/
theorem cosineSimilarity_ok_of_length_eq {a b : List ℚ} (h : a.length = b.length) :
    ∃ v, cosineSimilarity a b = .ok v := by
  unfold cosineSimilarity
  rw [if_neg (by simp [h])]
  by_cases hz : Rat.sqrt (sumSquares a) = 0 ∨ Rat.sqrt (sumSquares b) = 0
  · exact ⟨0, by rw [if_pos hz]⟩
  · exact ⟨_, by rw [if_neg hz]⟩

/-- A single mismatched candidate makes the whole similarity map throw the
dimension-mismatch error. -/
theorem computeSimilarities_error_of_mismatch (q : List ℚ) (cands : List NoteEmbedding)
    (h : ∃ c ∈ cands, c.embedding.length ≠ q.length) :
    computeSimilarities q cands = .error "Embedding dimensions must match" := by
  induction cands with
  | nil => simp at h
  | cons c cs ih =>
    rcases h with ⟨d, hd, hlen⟩
    rcases List.mem_cons.mp hd with rfl | hd
    · have hne : q.length ≠ d.embedding.length := fun he => hlen he.symm
      simp [computeSimilarities, cosineSimilarity, hne]
    · by_cases hc : q.length = c.embedding.length
      · obtain ⟨v, hv⟩ := cosineSimilarity_ok_of_length_eq hc
        simp [computeSimilarities, hv, ih ⟨d, hd, hlen⟩]
      · simp [computeSimilarities, cosineSimilarity, hc]

/-- C7: `cosineSimilarity` fails with the dimension-mismatch error for every
pair of vectors of differing lengths, and `semanticSearch` propagates this
failure for any mismatched candidate: the whole ranking fails (rethrown by
its catch as the generic search failure) instead of silently dropping the
candidate. -/
theorem C7_dimension_mismatch_fails_whole_ranking
    (a b : List ℚ) (hab : a.length ≠ b.length)
    (query : String) (cands : List NoteEmbedding) (threshold : ℚ)
    (provider : String → Except String ProviderResponse)
    (qr : EmbeddingResult)
    (hq : generateEmbedding query provider = .ok qr)
    (hmm : ∃ c ∈ cands, c.embedding.length ≠ qr.embedding.length) :
    cosineSimilarity a b = .error "Embedding dimensions must match" ∧
      semanticSearchInner query cands threshold provider =
        .error "Embedding dimensions must match" ∧
      semanticSearch query cands threshold provider =
        .error "Failed to perform semantic search" := by
  refine ⟨by simp [cosineSimilarity, hab], ?_, ?_⟩
  · simp [semanticSearchInner, hq,
      computeSimilarities_error_of_mismatch qr.embedding cands hmm]
  · simp [semanticSearch, semanticSearchInner, hq,
      computeSimilarities_error_of_mismatch qr.embedding cands hmm]

/-- C7 witness: a one-dimensional query embedding against a stored
two-dimensional candidate. -/
theorem C7_dimension_mismatch_witness :
    cosineSimilarity [1] [1, 2] = .error "Embedding dimensions must match" ∧
      semanticSearchInner "q" [⟨"c1", [1, 2], none⟩] 0 unitVectorProvider =
        .error "Embedding dimensions must match" ∧
      semanticSearch "q" [⟨"c1", [1, 2], none⟩] 0 unitVectorProvider =
        .error "Failed to perform semantic search" :=
  C7_dimension_mismatch_fails_whole_ranking [1] [1, 2] (by decide)
    "q" [⟨"c1", [1, 2], none⟩] 0 unitVectorProvider ⟨[1], 1⟩ rfl
    ⟨⟨"c1", [1, 2], none⟩, List.mem_singleton_self _, by decide⟩

/-- C8: on a successful run, the ranked output of `semanticSearch` contains
only entries meeting the threshold, is sorted non-increasing by similarity,
and, score by score, consists exactly of the threshold-passing computed
candidates in their input order (stable ties). -/
theorem C8_rank_exact_sorted_stable
    (query : String) (cands : List NoteEmbedding) (threshold : ℚ)
    (provider : String → Except String ProviderResponse)
    (qr : EmbeddingResult) (mapped : List SearchResult)
    (hq : generateEmbedding query provider = .ok qr)
    (hm : computeSimilarities qr.embedding cands = .ok mapped) :
    ∃ l, semanticSearch query cands threshold provider = .ok l ∧
      (∀ r ∈ l, threshold ≤ r.similarity) ∧
      SortedDescBySim l ∧
      ∀ c : ℚ, l.filter (fun r => decide (r.similarity = c)) =
        mapped.filter (fun r => decide (threshold ≤ r.similarity) &&
          decide (r.similarity = c)) := by
  refine ⟨sortBySimilarityDesc (mapped.filter fun r => decide (threshold ≤ r.similarity)),
    ?_, ?_, sortedDescBySim_sort _, ?_⟩
  · simp [semanticSearch, semanticSearchInner, hq, hm]
  · intro r hr
    have hmem := mem_sortBySimilarityDesc.mp hr
    have hfil := List.mem_filter.mp hmem
    exact of_decide_eq_true hfil.2
  · intro c
    rw [filter_sortBySimilarityDesc, List.filter_filter]
    simp only [Bool.and_comm]

/-- C8 witness: a successful run of the full pipeline on an empty candidate
set. -/
theorem C8_rank_exact_sorted_stable_witness :
    ∃ l, semanticSearch "q" [] 0 unitVectorProvider = .ok l ∧
      (∀ r ∈ l, (0 : ℚ) ≤ r.similarity) ∧
      SortedDescBySim l ∧
      ∀ c : ℚ, l.filter (fun r => decide (r.similarity = c)) =
        List.filter (fun r => decide ((0 : ℚ) ≤ r.similarity) &&
          decide (r.similarity = c)) [] :=
  C8_rank_exact_sorted_stable "q" [] 0 unitVectorProvider ⟨[1], 1⟩ [] rfl rfl

/-- C2: the search endpoint truncates the ranked list to `limit` and
reports the pre-truncation match count as `totalFound`: whenever the
underlying search succeeds with ranked list `l`, the response is
`⟨l.take limit, l.length⟩`, its `results` field holds at most `limit`
entries, and its `totalFound` field is the number of computed candidates
passing the threshold. -/
theorem C2_search_truncation_and_totalFound
    (query : String) (cands : List NoteEmbedding) (threshold : ℚ) (limit : ℕ)
    (provider : String → Except String ProviderResponse)
    (l : List SearchResult)
    (hs : semanticSearch query cands threshold provider = .ok l) :
    searchEndpoint query cands threshold limit provider =
        .ok ⟨l.take limit, l.length⟩ ∧
      (l.take limit).length ≤ limit ∧
      ∀ qr mapped, generateEmbedding query provider = .ok qr →
        computeSimilarities qr.embedding cands = .ok mapped →
        l.length = (mapped.filter fun r => decide (threshold ≤ r.similarity)).length := by
  refine ⟨by simp [searchEndpoint, hs], List.length_take_le limit l, ?_⟩
  intro qr mapped hq hm
  have hinner : semanticSearchInner query cands threshold provider =
      .ok (sortBySimilarityDesc (mapped.filter fun r => decide (threshold ≤ r.similarity))) := by
    simp [semanticSearchInner, hq, hm]
  obtain rfl : sortBySimilarityDesc (mapped.filter fun r => decide (threshold ≤ r.similarity)) = l := by
    simpa [semanticSearch, hinner] using hs
  exact length_sortBySimilarityDesc _

/-- C2 witness: an empty candidate set searched with limit 1. -/
theorem C2_search_truncation_witness :
    searchEndpoint "q" [] 0 1 unitVectorProvider = .ok ⟨[], 0⟩ ∧
      ([] : List SearchResult).length ≤ 1 :=
  ⟨(C2_search_truncation_and_totalFound "q" [] 0 1 unitVectorProvider [] rfl).1,
   (C2_search_truncation_and_totalFound "q" [] 0 1 unitVectorProvider [] rfl).2.1⟩

/-! ### Batch embedding processing -/

/-- The note fields read by the batch paths: id, optional title, document
content. -/
structure BatchNote where
  id : String
  title : Option String
  content : Option TipTapNode
deriving Inhabited

/-- The combined text sent to the embedding provider for a note:
`${note.title || ''} ${text}`.trim()`. -/
def noteFullText (note : BatchNote) : String :=
  jsTrim (note.title.getD "" ++ " " ++ extractTextFromTipTapContent note.content)

/-- One record pushed by `processNotesForEmbeddings`: an absent `error`
field marks success. -/
structure ProcessedNote where
  id : String
  embedding : List ℚ
  error : Option String
deriving DecidableEq, Inhabited

/-- The loop body of `processNotesForEmbeddings`: a too-short combined text
or a caught failure produces an empty embedding together with an error
detail, a success carries the embedding and no error field. -/
def processOneNote (provider : String → Except String ProviderResponse)
    (note : BatchNote) : ProcessedNote :=
  if (noteFullText note).length < 10 then
    { id := note.id, embedding := [], error := some "Content too short" }
  else
    match generateEmbedding (noteFullText note) provider with
    | .ok r => { id := note.id, embedding := r.embedding, error := none }
    | .error e => { id := note.id, embedding := [], error := some e }

/-- `processNotesForEmbeddings`: one record per note, in input order. -/
def processNotesForEmbeddings (notes : List BatchNote)
    (provider : String → Except String ProviderResponse) : List ProcessedNote :=
  notes.map (processOneNote provider)

/-- Every record keeps the id of the note it was built from. -/
theorem processOneNote_id (provider : String → Except String ProviderResponse)
    (note : BatchNote) : (processOneNote provider note).id = note.id := by
  rw [processOneNote]
  by_cases h : (noteFullText note).length < 10
  · rw [if_pos h]
  · rw [if_neg h]
    cases generateEmbedding (noteFullText note) provider with
    | ok r => rfl
    | error e => rfl

/-- Every record carrying an error detail carries the empty embedding. -/
theorem processOneNote_error_embedding
    (provider : String → Except String ProviderResponse) (note : BatchNote)
    (h : (processOneNote provider note).error.isSome) :
    (processOneNote provider note).embedding = [] := by
  by_cases hs : (noteFullText note).length < 10
  · rw [processOneNote, if_pos hs]
  · rw [processOneNote, if_neg hs] at h ⊢
    cases hge : generateEmbedding (noteFullText note) provider with
    | ok r => rw [hge] at h; simp at h
    | error e => rfl

/-- The summary accumulated by the batch branch of the embeddings route. -/
structure BatchSummary where
  processed : ℕ
  errors : ℕ
  errorDetails : List String
deriving DecidableEq

/-- Per-note step of the batch branch of the embeddings route `POST`
handler: too-short content, a provider throw and a database update failure
all increment `errors` and push a detail string; only a persisted embedding
increments `processed`. `persist` gives the database update outcome per
note id. -/
def routeProcessNote (note : BatchNote)
    (provider : String → Except String ProviderResponse)
    (persist : String → Bool) (acc : BatchSummary) : BatchSummary :=
  if (noteFullText note).length < 10 then
    { acc with errors := acc.errors + 1,
               errorDetails := acc.errorDetails ++
                 ["Note " ++ note.id ++ ": Content too short"] }
  else
    match generateEmbedding (noteFullText note) provider with
    | .error e =>
        { acc with errors := acc.errors + 1,
                   errorDetails := acc.errorDetails ++
                     ["Note " ++ note.id ++ ": " ++ e] }
    | .ok _ =>
        if persist note.id then
          { acc with processed := acc.processed + 1 }
        else
          { acc with errors := acc.errors + 1,
                     errorDetails := acc.errorDetails ++
                       ["Note " ++ note.id ++ ": Database update failed"] }

/-- The batch branch of the embeddings route `POST` handler: every fetched
note is classified into the summary counters. The source partitions the
notes into chunks of 5 and delays between chunks purely to pace the
provider; that scheduling does not change which counter each note reaches,
and within-chunk `Promise.all` completions are modelled in input order. -/
def routeBatchProcess (notes : List BatchNote)
    (provider : String → Except String ProviderResponse)
    (persist : String → Bool) : BatchSummary :=
  notes.foldl (fun acc note => routeProcessNote note provider persist acc) ⟨0, 0, []⟩

/-- Scenario note A: 3 characters of content. -/
def noteA : BatchNote := ⟨"A", none, some (.str "abc")⟩

/-- Scenario note B: valid content. -/
def noteB : BatchNote := ⟨"B", none, some (.str "a perfectly valid note content")⟩

/-- Scenario note C: content on which the provider fails. -/
def noteC : BatchNote := ⟨"C", none, some (.str "provider failing content")⟩

/-- A provider that fails exactly on note C's text. -/
def scenarioProvider : String → Except String ProviderResponse :=
  fun t => if t = "provider failing content" then .error "Provider failure"
           else .ok ⟨some [1], some 1⟩

/-- C1 counterexample: in the scenario batch over notes A (3 characters),
B (valid) and C (provider failure), the too-short note A is counted in
`errors` alongside C, so the run reports `{processed: 1, errors: 2}` and
not `{processed: 1, errors: 1}`. -/
theorem C1_short_note_counted_as_error_counterexample :
    (routeBatchProcess [noteA, noteB, noteC] scenarioProvider fun _ => true).processed
        = 1 ∧
      (routeBatchProcess [noteA, noteB, noteC] scenarioProvider fun _ => true).errors
        = 2 ∧
      (routeBatchProcess [noteA, noteB, noteC] scenarioProvider fun _ => true).errors
        ≠ 1 := by
  refine ⟨rfl, rfl, by decide⟩

/-- C1 amended: a note whose combined title-plus-text length is below 10 is
recorded as an error — `errors` is incremented and the detail
`"Content too short"` is pushed — in both batch paths; it is distinguishable
from other failures only through that detail string, not through a distinct
`skipped` status. -/
theorem C1_short_note_recorded_as_error (note : BatchNote)
    (provider : String → Except String ProviderResponse)
    (persist : String → Bool) (acc : BatchSummary)
    (h : (noteFullText note).length < 10) :
    routeProcessNote note provider persist acc =
      { acc with errors := acc.errors + 1,
                 errorDetails := acc.errorDetails ++
                   ["Note " ++ note.id ++ ": Content too short"] } ∧
      processNotesForEmbeddings [note] provider =
        [{ id := note.id, embedding := [], error := some "Content too short" }] := by
  constructor
  · rw [routeProcessNote, if_pos h]
  · simp [processNotesForEmbeddings, processOneNote, h]

/-- C1 amended witness at scenario note A. -/
theorem C1_short_note_recorded_as_error_witness :
    routeProcessNote noteA scenarioProvider (fun _ => true) ⟨0, 0, []⟩ =
        ⟨0, 1, ["Note A: Content too short"]⟩ ∧
      processNotesForEmbeddings [noteA] scenarioProvider =
        [{ id := "A", embedding := [], error := some "Content too short" }] :=
  C1_short_note_recorded_as_error noteA scenarioProvider (fun _ => true) ⟨0, 0, []⟩
    (by decide)

/-- One route batch step always classifies its note into exactly one
counter and keeps one detail string per error. -/
theorem routeProcessNote_step (note : BatchNote)
    (provider : String → Except String ProviderResponse)
    (persist : String → Bool) (acc : BatchSummary) :
    (routeProcessNote note provider persist acc).processed +
        (routeProcessNote note provider persist acc).errors =
      acc.processed + acc.errors + 1 ∧
      (acc.errorDetails.length = acc.errors →
        (routeProcessNote note provider persist acc).errorDetails.length =
          (routeProcessNote note provider persist acc).errors) := by
  rw [routeProcessNote]
  by_cases h : (noteFullText note).length < 10
  · rw [if_pos h]
    exact ⟨by simp; omega, fun hd => by simp [hd]⟩
  · rw [if_neg h]
    cases hge : generateEmbedding (noteFullText note) provider with
    | error e => exact ⟨by simp; omega, fun hd => by simp [hd]⟩
    | ok r =>
      by_cases hp : persist note.id
      · simp only [hp, if_true]
        exact ⟨by omega, fun hd => by simp [hd]⟩
      · simp only [hp, if_false, Bool.false_eq_true]
        exact ⟨by omega, fun hd => by simp [hd]⟩

/-- The fold underlying the route batch keeps the two invariants of
`routeProcessNote_step` across any note list. -/
theorem routeBatchProcess_fold_invariant (notes : List BatchNote)
    (provider : String → Except String ProviderResponse)
    (persist : String → Bool) (acc : BatchSummary) :
    (notes.foldl (fun a n => routeProcessNote n provider persist a) acc).processed +
        (notes.foldl (fun a n => routeProcessNote n provider persist a) acc).errors =
      acc.processed + acc.errors + notes.length ∧
      (acc.errorDetails.length = acc.errors →
        (notes.foldl (fun a n => routeProcessNote n provider persist a) acc).errorDetails.length =
          (notes.foldl (fun a n => routeProcessNote n provider persist a) acc).errors) := by
  induction notes generalizing acc with
  | nil => exact ⟨by simp, fun hd => hd⟩
  | cons n ns ih =>
    obtain ⟨hstep, hdet⟩ := routeProcessNote_step n provider persist acc
    obtain ⟨hfold, hfolddet⟩ := ih (routeProcessNote n provider persist acc)
    refine ⟨?_, fun hd => hfolddet (hdet hd)⟩
    rw [List.foldl_cons, hfold, hstep, List.length_cons]
    omega

/-- C9: a batch run never aborts on a single item's failure: for every note
list, provider behaviour and persistence behaviour, the route batch
completes with every note counted in exactly one of `processed`/`errors`,
one collected detail string per error, and `processNotesForEmbeddings`
returns a record for every note — even when every item fails. -/
theorem C9_batch_never_aborts (notes : List BatchNote)
    (provider : String → Except String ProviderResponse)
    (persist : String → Bool) :
    (routeBatchProcess notes provider persist).processed +
        (routeBatchProcess notes provider persist).errors = notes.length ∧
      (routeBatchProcess notes provider persist).errorDetails.length =
        (routeBatchProcess notes provider persist).errors ∧
      (processNotesForEmbeddings notes provider).length = notes.length := by
  obtain ⟨hcount, hdet⟩ :=
    routeBatchProcess_fold_invariant notes provider persist ⟨0, 0, []⟩
  exact ⟨by simpa using hcount, hdet rfl, by simp [processNotesForEmbeddings]⟩

/-- C10: the batch embedding processor returns exactly one outcome per
input note, in input order, with the i-th outcome's id equal to the i-th
note's id, and every outcome carrying an error detail has the empty
embedding (so success is marked by the absent error field). -/
theorem C10_one_outcome_per_note (notes : List BatchNote)
    (provider : String → Except String ProviderResponse) :
    (processNotesForEmbeddings notes provider).length = notes.length ∧
      ∀ i, i < notes.length →
        ((processNotesForEmbeddings notes provider)[i]?).map ProcessedNote.id =
            (notes[i]?).map BatchNote.id ∧
          ∀ p, (processNotesForEmbeddings notes provider)[i]? = some p →
            p.error.isSome → p.embedding = [] := by
  refine ⟨by simp [processNotesForEmbeddings], ?_⟩
  intro i hi
  constructor
  · rw [processNotesForEmbeddings, List.getElem?_map]
    cases hg : notes[i]? with
    | none => rfl
    | some note => simp [processOneNote_id]
  · intro p hp
    rw [processNotesForEmbeddings, List.getElem?_map] at hp
    cases hg : notes[i]? with
    | none => rw [hg] at hp; simp at hp
    | some note =>
      rw [hg] at hp
      simp only [Option.map_some'] at hp
      intro herr
      have hpn := Option.some.inj hp
      rw [← hpn] at herr ⊢
      exact processOneNote_error_embedding provider note herr

/-- C10 witness at the one-note batch over scenario note A. -/
theorem C10_one_outcome_per_note_witness :
    (processNotesForEmbeddings [noteA] scenarioProvider).length = 1 ∧
      ((processNotesForEmbeddings [noteA] scenarioProvider)[0]?).map ProcessedNote.id =
        (([noteA] : List BatchNote)[0]?).map BatchNote.id ∧
      (⟨"A", [], some "Content too short"⟩ : ProcessedNote).embedding = [] :=
  ⟨(C10_one_outcome_per_note [noteA] scenarioProvider).1,
   ((C10_one_outcome_per_note [noteA] scenarioProvider).2 0 (by decide)).1,
   ((C10_one_outcome_per_note [noteA] scenarioProvider).2 0 (by decide)).2
     ⟨"A", [], some "Content too short"⟩ rfl rfl⟩

end NorateAI
